import Mathlib

/-!
# Shallow embedding of the `json-rpc` crate's codec logic

This file embeds the wire-level JSON-RPC 2.0 codec of the repository
(`src/raw.rs`, `src/request.rs`, `src/response.rs`, `src/id.rs`,
`src/batch.rs`, `src/unknown_params.rs`, with type definitions from
`src/lib.rs`) together with the parts of the `serde`/`serde_json`
machinery those files rely on, and proves the behavioural claims about
it.

## Modelling conventions

* A JSON document is the `Json` inductive below.  JSON number tokens are
  modelled the way `serde_json`'s parser classifies them: an integer
  literal is `Json.intNum i` (the parser then dispatches it to
  `visit_u64` when `0 ≤ i` and to `visit_i64` otherwise), while a
  literal written with a fraction or an exponent is `Json.floatNum q`.
  A finite `f64` value is modelled as the rational number it denotes
  (`serde_json` prints finite floats with `ryu`, whose output always
  contains a `.` or an exponent and re-parses to the identical value).
  Non-finite floats (NaN, infinities) are outside the model.
* `u64`/`i64` range bounds are not tracked: every value producible by
  the Rust code is representable, and none of the claims exercises
  overflow.
* serde's derived struct deserialisation is modelled field-for-field:
  entries of the wire object are scanned in order, duplicate known
  fields are an error, unknown keys are ignored, and a field missing at
  the end of the scan is resolved by its `#[serde(default)]` attribute
  when one is present and by `serde::__private::de::missing_field`
  otherwise.  `missing_field` drives the field type's `Deserialize`
  impl with a deserializer that fails with a missing-field error on
  everything except `deserialize_option`, which answers `visit_none`.
* Error values (`DeErr`) keep the constructor structure and the custom
  message strings of the source; serde's own diagnostic texts are
  abbreviated to the kind of error raised.
-/

namespace JsonRpc

/-- A parsed JSON document, with number tokens pre-classified the way
`serde_json`'s parser hands them to a `Visitor` (integer literals vs
float literals). -/
inductive Json where
  | null : Json
  | bool : Bool → Json
  | intNum : Int → Json
  | floatNum : ℚ → Json
  | str : String → Json
  | arr : List Json → Json
  | obj : List (String × Json) → Json

/-- The JSON kind names used by `serde_json` in `invalid_type` errors. -/
def Json.kindName : Json → String
  | .null => "null"
  | .bool _ => "boolean"
  | .intNum _ => "integer"
  | .floatNum _ => "floating point"
  | .str _ => "string"
  | .arr _ => "sequence"
  | .obj _ => "map"

/-- `true` exactly on the JSON `null` document. -/
def Json.isNull : Json → Bool
  | .null => true
  | _ => false

/-- Decode errors surfaced by the codec.  `custom` carries the verbatim
message passed to `serde::de::Error::custom` in the source; `invalidValue`
carries the offending value and the expectation, as produced by
`Error::invalid_value` in `into_request` / `into_response`. -/
inductive DeErr where
  | missingField (name : String) : DeErr
  | duplicateField (name : String) : DeErr
  | invalidType (unexpected : String) : DeErr
  | invalidValue (got : String) (expected : String) : DeErr
  | custom (msg : String) : DeErr
deriving DecidableEq

/-- `Id<'a>` from `src/lib.rs` / `src/id.rs`: a JSON-RPC request
identifier.  `str` abstracts over the `Cow` borrowed/owned distinction
(both carry the same string content), and `float` holds the rational
value of a finite `f64`. -/
inductive Id where
  | null : Id
  | str (s : String) : Id
  | int (i : Int) : Id
  | uint (n : Nat) : Id
  | float (q : ℚ) : Id
deriving DecidableEq

/-- `serialize_id` from `src/raw.rs` (also `Id::serialize` in
`src/id.rs`), composed with `serde_json`'s writer: `Null` is written as
`null`, strings as strings, `serialize_i64`/`serialize_u64` write the
integer literal, and `serialize_f64` writes a float literal denoting the
same value. -/
def encodeId : Id → Json
  | .null => .null
  | .str s => .str s
  | .int i => .intNum i
  | .uint n => .intNum n
  | .float q => .floatNum q

/-- `deserialize_id` from `src/raw.rs` (also `Id::deserialize` in
`src/id.rs`): `deserialize_option(IdVisitor)`.  `serde_json` answers
`visit_none` on `null`; otherwise `IdVisitor.visit_some` re-enters
`deserialize_any`, which classifies an integer literal as `u64` when it
is non-negative (hence `visit_u64` → `Uint`) and as `i64` otherwise
(`visit_i64` → `Int`); float literals reach `visit_f64` → `Float` and
strings reach `visit_str` → `Str`.  `IdVisitor` implements no
`visit_bool`/`visit_seq`/`visit_map`, so those shapes fall through to
the default `Visitor` methods, an `invalid_type` error. -/
def decodeId : Json → Except DeErr Id
  | .null => .ok .null
  | .str s => .ok (.str s)
  | .intNum i => .ok (if 0 ≤ i then .uint i.toNat else .int i)
  | .floatNum q => .ok (.float q)
  | .bool _ => .error (.invalidType "boolean")
  | .arr _ => .error (.invalidType "sequence")
  | .obj _ => .error (.invalidType "map")

/-- `Request<'a, P>` from `src/lib.rs` / `src/request.rs`. -/
structure Request (P : Type) where
  method : String
  params : P
  id : Option Id
deriving DecidableEq

/-- How a params type `P` behaves under serde: `dec` decodes a present
`params` value, `onMissing` is what `P` yields for an absent `params`
key (serde's `missing_field`: a missing-field error for most types, but
`Ok` of the `visit_none` result for types entered through
`deserialize_option`). -/
structure ParamsCodec (P : Type) where
  dec : Json → Except DeErr P
  onMissing : Except DeErr P

/-- The `id` field of `IncomingRequest` in `src/raw.rs`: a plain
`Option<Id>`, so serde consumes an explicit `null` at the `Option`
layer and yields `None`; any other value is decoded by `deserialize_id`
and wrapped in `Some`. -/
def idFieldRaw : Json → Except DeErr (Option Id)
  | .null => .ok none
  | v => (decodeId v).map some

/-- The `deserialize_id` helper of `src/request.rs` (applied by
`#[serde(deserialize_with = "deserialize_id")]` when the `id` key is
present): `Option::deserialize` then `None => Ok(Some(Id::Null))`, so an
explicit `null` decodes to `Some(Id::Null)`. -/
def idFieldReq : Json → Except DeErr (Option Id)
  | .null => .ok (some .null)
  | v => (decodeId v).map some

/-- The derived `Deserialize::visit_map` loop of `IncomingRequest`
(`src/raw.rs` and `src/request.rs`): scan the wire object's entries in
order, filling the four fields, erroring on a duplicate known field or
on a field value of the wrong shape, and ignoring unknown keys.
`idDec` is the per-file handling of a present `id` value. -/
def reqScan (P : Type) (pdec : Json → Except DeErr P)
    (idDec : Json → Except DeErr (Option Id)) :
    List (String × Json) → Option String → Option String → Option P →
      Option (Option Id) →
      Except DeErr (Option String × Option String × Option P × Option (Option Id))
  | [], j, m, p, i => .ok (j, m, p, i)
  | (k, v) :: rest, j, m, p, i =>
    if k = "jsonrpc" then
      match j with
      | some _ => .error (.duplicateField "jsonrpc")
      | none =>
        match v with
        | .str s => reqScan P pdec idDec rest (some s) m p i
        | v => .error (.invalidType v.kindName)
    else if k = "method" then
      match m with
      | some _ => .error (.duplicateField "method")
      | none =>
        match v with
        | .str s => reqScan P pdec idDec rest j (some s) p i
        | v => .error (.invalidType v.kindName)
    else if k = "params" then
      match p with
      | some _ => .error (.duplicateField "params")
      | none =>
        match pdec v with
        | .ok pv => reqScan P pdec idDec rest j m (some pv) i
        | .error e => .error e
    else if k = "id" then
      match i with
      | some _ => .error (.duplicateField "id")
      | none =>
        match idDec v with
        | .ok iv => reqScan P pdec idDec rest j m p (some iv)
        | .error e => .error e
    else
      reqScan P pdec idDec rest j m p i

/-- Decode of a request from the entries of a wire object:
the derived struct decode (field scan, then missing-field resolution —
`jsonrpc` and `method` have no default and are not `Option`-entered, so
their absence is a missing-field error; `params` resolves through the
params type's own `missing_field` behaviour; `id` carries
`#[serde(default)]`, so its absence yields `None`) followed by
`IncomingRequest::into_request`, which rejects any `jsonrpc` value other
than `"2.0"` with `invalid_value`. -/
def decodeRequestFields (P : Type) (pc : ParamsCodec P)
    (idDec : Json → Except DeErr (Option Id))
    (fields : List (String × Json)) : Except DeErr (Request P) :=
  match reqScan P pc.dec idDec fields none none none none with
  | .error e => .error e
  | .ok (j, m, p, i) =>
    match j with
    | none => .error (.missingField "jsonrpc")
    | some jv =>
      match m with
      | none => .error (.missingField "method")
      | some mv =>
        match (match p with | some pv => (.ok pv : Except DeErr P) | none => pc.onMissing) with
        | .error e => .error e
        | .ok pv =>
          if jv = "2.0" then .ok ⟨mv, pv, i.getD none⟩
          else .error (.invalidValue jv "2.0")

/-- Top-level decode of a request document through the live path of the
crate (`src/lib.rs` → `src/raw.rs`): `serde_json` only feeds a struct
visitor from a JSON object, any other top-level shape is an
`invalid_type` error. -/
def decodeRequestRaw (P : Type) (pc : ParamsCodec P) : Json → Except DeErr (Request P)
  | .obj fields => decodeRequestFields P pc idFieldRaw fields
  | v => .error (.invalidType v.kindName)

/-- Top-level decode of a request document through `src/request.rs`'s
`Request::deserialize` (the copy whose `id` field uses the
`deserialize_id` helper). -/
def decodeRequest (P : Type) (pc : ParamsCodec P) : Json → Except DeErr (Request P)
  | .obj fields => decodeRequestFields P pc idFieldReq fields
  | v => .error (.invalidType v.kindName)

/-- `OutgoingRequest::from_request` followed by its derived serializer
(identical in `src/raw.rs` and `src/request.rs`): emit `jsonrpc`,
`method` and `params` in declaration order, and — because of
`#[serde(skip_serializing_if = "Option::is_none")]` — emit the `id`
entry only when an identifier is present. -/
def encodeRequest (P : Type) (penc : P → Json) (r : Request P) : Json :=
  .obj ([("jsonrpc", .str "2.0"), ("method", .str r.method),
         ("params", penc r.params)] ++
    match r.id with
    | none => []
    | some i => [("id", encodeId i)])

/-- Params type `P = serde_json::Value` (any JSON value, required on the
wire): decoding never fails, a missing `params` key is a missing-field
error. -/
def jsonParams : ParamsCodec Json where
  dec := fun v => .ok v
  onMissing := .error (.missingField "params")

/-- Params type `P = Option<()>`, as used by the tests in
`src/request.rs`: a present `null` (or absent key, via
`missing_field` → `deserialize_option` → `visit_none`) is `None`; `()`
itself only decodes from `null`, which the outer `Option` consumes
first, so every other present value is an `invalid_type` error. -/
def optUnitParams : ParamsCodec (Option Unit) where
  dec := fun v =>
    match v with
    | .null => .ok none
    | v => .error (.invalidType v.kindName)
  onMissing := .ok none

/-- `ErrorCode` from `src/lib.rs` / `src/response.rs`: a newtype over
`i64`. -/
structure ErrorCode where
  code : Int
deriving DecidableEq

/-- `Error<'a, E>` from `src/lib.rs` / `src/response.rs`. -/
structure RpcError (E : Type) where
  code : ErrorCode
  message : String
  data : Option E
deriving DecidableEq

/-- `Response<'a, T, E>` from `src/lib.rs` / `src/response.rs`:
`result : Result<T, Error<E>>` is the outcome, `id` the mandatory
identifier. -/
structure Response (T E : Type) where
  result : Except (RpcError E) T
  id : Id

/-- How a result / error-data payload type behaves under serde:
`enc` is its serialisation, `dec` its deserialisation from a present
value. -/
structure PayloadCodec (A : Type) where
  enc : A → Json
  dec : Json → Except DeErr A

/-- Payload type `serde_json::Value`: serialises as itself, never fails
to decode. -/
def jsonPayload : PayloadCodec Json where
  enc := fun v => v
  dec := fun v => .ok v

/-- `OutgoingError` serialisation (`src/raw.rs` / `src/response.rs`):
`code` and `message` always, `data` only when present
(`skip_serializing_if = "Option::is_none"`). -/
def encodeError (E : Type) (eenc : E → Json) (e : RpcError E) : Json :=
  .obj ([("code", .intNum e.code.code), ("message", .str e.message)] ++
    match e.data with
    | none => []
    | some d => [("data", eenc d)])

/-- `OutogingResponse::from_response` followed by its derived serializer
(`src/raw.rs` / `src/response.rs`): `jsonrpc` first, then exactly one of
`result` / `error` according to the outcome (the other is `None` and
skipped), then the `id`. -/
def encodeResponse (T E : Type) (tc : PayloadCodec T) (ec : PayloadCodec E)
    (r : Response T E) : Json :=
  .obj ([("jsonrpc", .str "2.0")] ++
    (match r.result with
     | .ok t => [("result", tc.enc t)]
     | .error e => [("error", encodeError E ec.enc e)]) ++
    [("id", encodeId r.id)])

/-- The derived `Deserialize::visit_map` loop of `IncomingError`
(`src/raw.rs` / `src/response.rs`): `code` is an `i64` (only an integer
literal is accepted), `message` a string, `data` an `Option<E>` (a
present `null` is consumed by the `Option` layer and yields `None`). -/
def errScan (E : Type) (edec : Json → Except DeErr E) :
    List (String × Json) → Option Int → Option String → Option (Option E) →
      Except DeErr (Option Int × Option String × Option (Option E))
  | [], c, m, d => .ok (c, m, d)
  | (k, v) :: rest, c, m, d =>
    if k = "code" then
      match c with
      | some _ => .error (.duplicateField "code")
      | none =>
        match v with
        | .intNum i => errScan E edec rest (some i) m d
        | v => .error (.invalidType v.kindName)
    else if k = "message" then
      match m with
      | some _ => .error (.duplicateField "message")
      | none =>
        match v with
        | .str s => errScan E edec rest c (some s) d
        | v => .error (.invalidType v.kindName)
    else if k = "data" then
      match d with
      | some _ => .error (.duplicateField "data")
      | none =>
        match v with
        | .null => errScan E edec rest c m (some none)
        | v =>
          match edec v with
          | .ok dv => errScan E edec rest c m (some (some dv))
          | .error e => .error e
    else
      errScan E edec rest c m d

/-- Decode of an `IncomingError` value: only an object is accepted;
`code` and `message` are required (no default, not `Option`-entered),
`data` carries `#[serde(default = "Option::default")]`, so its absence
yields `None`. -/
def decodeIncomingError (E : Type) (edec : Json → Except DeErr E) :
    Json → Except DeErr (Int × String × Option E)
  | .obj fields =>
    (match errScan E edec fields none none none with
     | .error e => .error e
     | .ok (c, m, d) =>
       match c with
       | none => .error (.missingField "code")
       | some cv =>
         match m with
         | none => .error (.missingField "message")
         | some mv => .ok (cv, mv, d.getD none))
  | v => .error (.invalidType v.kindName)

/-- The derived `Deserialize::visit_map` loop of `IncomingResponse`
(`src/raw.rs` / `src/response.rs`): `result` is an `Option<T>` and
`error` an `Option<IncomingError<E>>`, so a present `null` in either
yields `None`; `id` is decoded by `Id`'s own `deserialize`
(`deserialize_option(IdVisitor)`, under which `null` is `visit_none`,
i.e. `Id::Null`). -/
def resScan (T E : Type) (tdec : Json → Except DeErr T)
    (edec : Json → Except DeErr E) :
    List (String × Json) → Option String → Option (Option T) →
      Option (Option (Int × String × Option E)) → Option Id →
      Except DeErr (Option String × Option (Option T) ×
        Option (Option (Int × String × Option E)) × Option Id)
  | [], j, r, e, i => .ok (j, r, e, i)
  | (k, v) :: rest, j, r, e, i =>
    if k = "jsonrpc" then
      match j with
      | some _ => .error (.duplicateField "jsonrpc")
      | none =>
        match v with
        | .str s => resScan T E tdec edec rest (some s) r e i
        | v => .error (.invalidType v.kindName)
    else if k = "result" then
      match r with
      | some _ => .error (.duplicateField "result")
      | none =>
        match v with
        | .null => resScan T E tdec edec rest j (some none) e i
        | v =>
          match tdec v with
          | .ok tv => resScan T E tdec edec rest j (some (some tv)) e i
          | .error er => .error er
    else if k = "error" then
      match e with
      | some _ => .error (.duplicateField "error")
      | none =>
        match v with
        | .null => resScan T E tdec edec rest j r (some none) i
        | v =>
          match decodeIncomingError E edec v with
          | .ok ev => resScan T E tdec edec rest j r (some (some ev)) i
          | .error er => .error er
    else if k = "id" then
      match i with
      | some _ => .error (.duplicateField "id")
      | none =>
        match decodeId v with
        | .ok iv => resScan T E tdec edec rest j r e (some iv)
        | .error er => .error er
    else
      resScan T E tdec edec rest j r e i

/-- Decode of a response from the entries of a wire object: the derived
struct decode (`jsonrpc` required; `result` and `error` default to
`None`; the `id` field has no `#[serde(default)]`, so its absence goes
through serde's `missing_field`, whose deserializer answers
`deserialize_option` with `visit_none` — and `Id::deserialize` enters
through `deserialize_option`, so a missing `id` resolves to `Id::Null`
rather than an error), followed by `IncomingResponse::into_response`:
the `"2.0"` version check, then the `(result, error)` match with its
two `custom` error messages. -/
def decodeResponseFields (T E : Type) (tc : PayloadCodec T)
    (ec : PayloadCodec E) (fields : List (String × Json)) :
    Except DeErr (Response T E) :=
  match resScan T E tc.dec ec.dec fields none none none none with
  | .error e => .error e
  | .ok (j, r, e, i) =>
    match j with
    | none => .error (.missingField "jsonrpc")
    | some jv =>
      let rv := r.getD none
      let ev := e.getD none
      let iv := i.getD .null
      if jv = "2.0" then
        match rv, ev with
        | some t, none => .ok ⟨.ok t, iv⟩
        | none, some er => .ok ⟨.error ⟨⟨er.1⟩, er.2.1, er.2.2⟩, iv⟩
        | some _, some _ =>
          .error (.custom "response cannot contain both `result` and `error` fields")
        | none, none =>
          .error (.custom "response must contain either `result` or `error` field")
      else .error (.invalidValue jv "2.0")

/-- Top-level decode of a response document (`src/lib.rs` →
`src/raw.rs` `deserialize_response`, identical in `src/response.rs`):
only an object is accepted. -/
def decodeResponse (T E : Type) (tc : PayloadCodec T) (ec : PayloadCodec E) :
    Json → Except DeErr (Response T E)
  | .obj fields => decodeResponseFields T E tc ec fields
  | v => .error (.invalidType v.kindName)

/-- `MaybeBatchedRequests<'a, P>` from `src/batch.rs`. -/
inductive MaybeBatchedRequests (P : Type) where
  | single (r : Request P) : MaybeBatchedRequests P
  | batch (rs : List (Request P)) : MaybeBatchedRequests P

/-- Element-wise decode of a JSON array into `Vec<Request>`
(`Vec::deserialize` driven by `SeqAccessDeserializer` in
`MaybeBatchedVisitor::visit_seq`): requests are decoded in order and
the first element failure fails the whole vector. -/
def decodeRequestList (P : Type) (pc : ParamsCodec P) :
    List Json → Except DeErr (List (Request P))
  | [] => .ok []
  | x :: xs =>
    match decodeRequest P pc x with
    | .error e => .error e
    | .ok r =>
      match decodeRequestList P pc xs with
      | .error e => .error e
      | .ok rs => .ok (r :: rs)

/-- `MaybeBatchedRequests::deserialize` (`src/batch.rs`):
`deserialize_any` with `MaybeBatchedVisitor` — a top-level array goes
through `visit_seq` into the `Batch` variant, a top-level object
through `visit_map` into the `Single` variant (driving `Request`'s own
deserializer, i.e. `src/request.rs`'s `IncomingRequest`), and every
other shape hits the default `Visitor` methods, an `invalid_type`
error. -/
def decodeMaybeBatched (P : Type) (pc : ParamsCodec P) :
    Json → Except DeErr (MaybeBatchedRequests P)
  | .arr xs =>
    match decodeRequestList P pc xs with
    | .error e => .error e
    | .ok rs => .ok (.batch rs)
  | .obj fields =>
    match decodeRequestFields P pc idFieldReq fields with
    | .error e => .error e
    | .ok r => .ok (.single r)
  | v => .error (.invalidType v.kindName)

/-- `MaybeBatchedRequests::serialize` (`src/batch.rs`): a held batch
serialises as the JSON array of its requests, a held single request as
the bare request object — no added wrapping. -/
def encodeMaybeBatched (P : Type) (penc : P → Json) :
    MaybeBatchedRequests P → Json
  | .single r => encodeRequest P penc r
  | .batch rs => .arr (rs.map (encodeRequest P penc))

/-- `UnknownParams<'a>` from `src/unknown_params.rs` / `src/lib.rs`: a
newtype over `Option<&RawValue>`.  The captured `RawValue` is modelled
as the `Json` document its raw text spans. -/
def UnknownParams : Type := Option Json

/-- `UnknownParams::parse` (`src/unknown_params.rs` / `src/lib.rs`):
`self.0.map_or("[]", RawValue::get)` then `serde_json::from_str` — the
stored raw text (or the literal `"[]"`, i.e. the empty array, when no
bytes are held) is re-parsed with the caller-chosen target decoder. -/
def UnknownParams.parse (A : Type) (dec : Json → Except DeErr A) :
    UnknownParams → Except DeErr A
  | none => dec (.arr [])
  | some j => dec j

/-- What the derived `Deserialize` of `UnknownParams` stores for a
present `params` value: an explicit `null` is consumed by the inner
`Option<&RawValue>` layer and stores `None`; any other value's raw text
is captured verbatim by the `RawValue`, without inspection. -/
def captureParams : Json → UnknownParams
  | .null => none
  | v => some v

/-- serde behaviour of `P = UnknownParams`: a present `params` value is
captured by `captureParams` and never fails; a missing `params` key is
a missing-field error, because the derived newtype-struct `Deserialize`
enters through `deserialize_newtype_struct`, which `missing_field`'s
deserializer rejects. -/
def unknownParamsCodec : ParamsCodec UnknownParams where
  dec := fun v => .ok (captureParams v)
  onMissing := .error (.missingField "params")

/-- Identifiers whose wire form decodes back to the same variant:
everything except a non-negative `Int` (whose integer literal
`serde_json` re-classifies as `u64`, i.e. `Uint`).  `Float` is included
because every finite `f64` is printed by `ryu` in a float form that
re-parses to the identical value; non-finite floats are outside the
model. -/
def idWireSafe : Id → Bool
  | .int i => decide (i < 0)
  | _ => true

/-- The effect of serde's `Option` layer on a round-tripped optional
payload: a stored value that serialises to `null` is read back as
"absent". -/
def nullToNone : Option Json → Option Json
  | some .null => none
  | x => x

/-- `Vec<A>`'s deserialisation: only a JSON array is accepted, decoded
element-wise. -/
def decodeList (A : Type) (dec : Json → Except DeErr A) :
    Json → Except DeErr (List A)
  | .arr xs => go xs
  | v => .error (.invalidType v.kindName)
where
  go : List Json → Except DeErr (List A)
    | [] => .ok []
    | x :: xs =>
      match dec x with
      | .error e => .error e
      | .ok a =>
        match go xs with
        | .error e => .error e
        | .ok as => .ok (a :: as)

/-! ## General lemmas -/

/-- An identifier that is not a non-negative `Int` survives the encode
→ decode round trip unchanged. -/
theorem decodeId_encodeId (i : Id) (h : idWireSafe i = true) :
    decodeId (encodeId i) = .ok i := by
  cases i with
  | null => rfl
  | str s => rfl
  | float q => rfl
  | uint n => simp [encodeId, decodeId, Int.toNat_natCast, Int.natCast_nonneg]
  | int j =>
    have hj : j < 0 := by simpa [idWireSafe] using h
    simp [encodeId, decodeId, not_le.mpr hj]

/-- When the element-wise decode of a batch succeeds, every element of
the array decoded successfully as a request. -/
theorem decodeRequestList_ok_forall (P : Type) (pc : ParamsCodec P)
    (xs : List Json) (rs : List (Request P))
    (h : decodeRequestList P pc xs = .ok rs) :
    ∀ x ∈ xs, ∃ r, decodeRequest P pc x = .ok r := by
  induction xs generalizing rs with
  | nil => simp
  | cons y ys ih =>
    intro x hx
    rw [decodeRequestList] at h
    rcases hy : decodeRequest P pc y with e | r
    · rw [hy] at h; exact absurd h (by simp)
    · rw [hy] at h
      rcases hys : decodeRequestList P pc ys with e | rs2
      · rw [hys] at h; exact absurd h (by simp)
      · rcases List.mem_cons.mp hx with rfl | hmem
        · exact ⟨r, hy⟩
        · exact ih rs2 hys x hmem

/-! ## The claims -/

/-- Claim C1 (the code contradicts it): on the compiled decode path
(`src/lib.rs` → `src/raw.rs`) a request whose `id` key is present with
explicit JSON `null` decodes to `id = None`, not `id = Some(Null)` —
the raw `Option<Id>` field consumes the `null` at the `Option` layer —
whereas `src/request.rs`'s copy of the decoder (whose `deserialize_id`
helper the repository's own `null_id` test exercises) yields
`Some(Null)` as the claim states.  The remaining parts of the claim
hold on both paths: an absent `id` key decodes to `None`, encoding a
request with `id = None` omits the `id` key entirely, and on the
`src/request.rs` path both `id = None` and `id = Some(Null)` survive
an encode→decode round trip — while the live path collapses the
encoded `Some(Null)` back to `None`. -/
theorem claim1_request_null_id_code_bug :
    decodeRequestRaw (Option Unit) optUnitParams
      (.obj [("jsonrpc", .str "2.0"), ("method", .str "")]) = .ok ⟨"", none, none⟩ ∧
    decodeRequest (Option Unit) optUnitParams
      (.obj [("jsonrpc", .str "2.0"), ("method", .str "")]) = .ok ⟨"", none, none⟩ ∧
    decodeRequest (Option Unit) optUnitParams
      (.obj [("jsonrpc", .str "2.0"), ("method", .str ""), ("id", .null)]) =
      .ok ⟨"", none, some .null⟩ ∧
    decodeRequestRaw (Option Unit) optUnitParams
      (.obj [("jsonrpc", .str "2.0"), ("method", .str ""), ("id", .null)]) =
      .ok ⟨"", none, none⟩ ∧
    encodeRequest Json (fun v => v) ⟨"m", .arr [], none⟩ =
      .obj [("jsonrpc", .str "2.0"), ("method", .str "m"), ("params", .arr [])] ∧
    decodeRequest Json jsonParams
      (encodeRequest Json (fun v => v) ⟨"m", .arr [], none⟩) = .ok ⟨"m", .arr [], none⟩ ∧
    decodeRequest Json jsonParams
      (encodeRequest Json (fun v => v) ⟨"m", .arr [], some .null⟩) =
      .ok ⟨"m", .arr [], some .null⟩ ∧
    decodeRequestRaw Json jsonParams
      (encodeRequest Json (fun v => v) ⟨"m", .arr [], some .null⟩) =
      .ok ⟨"m", .arr [], none⟩ :=
  ⟨rfl, rfl, rfl, rfl, rfl, rfl, rfl, rfl⟩

/-- Claim C2, counterexample: encoding `Id::Int(1)` writes the integer
literal `1`, which `serde_json` classifies as a `u64`, so decoding
returns `Id::Uint(1)` — a different variant — refuting "for each of
Int(1), Uint(1), Float(1.0), Str(\"1\") … decoding returns the same
variant". -/
theorem claim2_counterexample :
    decodeId (encodeId (.int 1)) = .ok (.uint 1) ∧
    decodeId (encodeId (.int 1)) ≠ .ok (.int 1) :=
  ⟨rfl, fun h => Id.noConfusion (Except.ok.inj h)⟩

/-- Claim C2 as amended: `Uint(1)`, `Float(1.0)` and `Str("1")` (and
`Null`, and every negative `Int` such as `Int(-1)`) round-trip to the
same variant and value; `Int(1)` round-trips to the numerically equal
`Uint(1)`, because `serde_json` hands every non-negative integer
literal to `visit_u64` — the decoder itself maps each literal class to
exactly one variant and performs no other coercion. -/
theorem claim2_id_fidelity_amended :
    decodeId (encodeId (.uint 1)) = .ok (.uint 1) ∧
    decodeId (encodeId (.float 1)) = .ok (.float 1) ∧
    decodeId (encodeId (.str "1")) = .ok (.str "1") ∧
    decodeId (encodeId .null) = .ok .null ∧
    decodeId (encodeId (.int (-1))) = .ok (.int (-1)) ∧
    decodeId (encodeId (.int 1)) = .ok (.uint 1) :=
  ⟨rfl, rfl, rfl, rfl, rfl, rfl⟩

/-- Claim C3 (the code contradicts it): a response wire object with no
`id` key does NOT fail to decode — serde resolves the missing field
through `missing_field`, whose deserializer answers
`deserialize_option` (the entry point of `Id::deserialize`) with
`visit_none`, so the response decodes successfully with `id = Null`,
indistinguishable from an explicit `"id":null` — although the field's
own comment in `src/raw.rs` / `src/response.rs` says "The `id` field
must still be present". -/
theorem claim3_response_missing_id_code_bug :
    decodeResponse Json Json jsonPayload jsonPayload
      (.obj [("jsonrpc", .str "2.0"), ("result", .intNum 1)]) =
      .ok ⟨.ok (.intNum 1), .null⟩ ∧
    decodeResponse Json Json jsonPayload jsonPayload
      (.obj [("jsonrpc", .str "2.0"), ("result", .intNum 1), ("id", .null)]) =
      .ok ⟨.ok (.intNum 1), .null⟩ :=
  ⟨rfl, rfl⟩

/-- Claim C4, counterexample: a wire object containing BOTH a `result`
member (value `null`) and an `error` member decodes successfully to the
failure outcome instead of failing with the "both present" error — the
`Option<T>` field treats the `null` value as absent. -/
theorem claim4_counterexample :
    decodeResponse Json Json jsonPayload jsonPayload
      (.obj [("jsonrpc", .str "2.0"), ("result", .null),
        ("error", .obj [("code", .intNum 1), ("message", .str "m")]),
        ("id", .intNum 1)]) =
      .ok ⟨.error ⟨⟨1⟩, "m", none⟩, .uint 1⟩ := rfl

/-- Claim C4 as amended: with "present" meaning "present with a
non-`null` value" (a `null`-valued `result` or `error` member is
consumed by the `Option` layer and counts as absent), decoding a
response with both members present fails with the "both present"
custom error, one with neither fails with the distinct "neither
present" custom error, a lone `result` decodes to the success outcome
and a lone `error` to the failure outcome. -/
theorem claim4_outcome_exclusivity_amended :
    decodeResponse Json Json jsonPayload jsonPayload
      (.obj [("jsonrpc", .str "2.0"), ("result", .intNum 1),
        ("error", .obj [("code", .intNum 1), ("message", .str "m")]),
        ("id", .intNum 1)]) =
      .error (.custom "response cannot contain both `result` and `error` fields") ∧
    decodeResponse Json Json jsonPayload jsonPayload
      (.obj [("jsonrpc", .str "2.0"), ("id", .intNum 1)]) =
      .error (.custom "response must contain either `result` or `error` field") ∧
    decodeResponse Json Json jsonPayload jsonPayload
      (.obj [("jsonrpc", .str "2.0"), ("result", .intNum 7), ("id", .intNum 1)]) =
      .ok ⟨.ok (.intNum 7), .uint 1⟩ ∧
    decodeResponse Json Json jsonPayload jsonPayload
      (.obj [("jsonrpc", .str "2.0"),
        ("error", .obj [("code", .intNum (-32700)), ("message", .str "oops")]),
        ("id", .intNum 1)]) =
      .ok ⟨.error ⟨⟨-32700⟩, "oops", none⟩, .uint 1⟩ ∧
    DeErr.custom "response cannot contain both `result` and `error` fields" ≠
      DeErr.custom "response must contain either `result` or `error` field" :=
  ⟨rfl, rfl, rfl, rfl, by decide⟩

/-- Claim C5, counterexample: the encode→decode round trip of a
response does not always succeed with an identical id.  A success
payload that serialises to JSON `null` produces `"result":null`, which
decodes as "result absent" and fails with the "neither present" error;
and a response with `id = Int(1)` decodes with `id = Uint(1)`, a
different identifier variant (`Uint(1) ≠ Int(1)`). -/
theorem claim5_counterexample :
    decodeResponse Json Json jsonPayload jsonPayload
      (encodeResponse Json Json jsonPayload jsonPayload ⟨.ok .null, .uint 1⟩) =
      .error (.custom "response must contain either `result` or `error` field") ∧
    decodeResponse Json Json jsonPayload jsonPayload
      (encodeResponse Json Json jsonPayload jsonPayload ⟨.ok (.bool true), .int 1⟩) =
      .ok ⟨.ok (.bool true), .uint 1⟩ ∧
    Id.uint 1 ≠ Id.int 1 :=
  ⟨rfl, rfl, by decide⟩

/-- Claim C5 as amended: for every response whose success payload does
not serialise to JSON `null` and whose id is not a non-negative `Int`
(and not a non-finite float, which the model excludes), encode→decode
succeeds with the same outcome variant and an identical id: a success
reproduces the payload exactly, and a failure reproduces the error's
code and message, with error `data` that serialised to `null` read
back as absent. -/
theorem claim5_response_roundtrip_amended (t : Json) (e : RpcError Json) (i : Id)
    (ht : t.isNull = false) (hi : idWireSafe i = true) :
    decodeResponse Json Json jsonPayload jsonPayload
      (encodeResponse Json Json jsonPayload jsonPayload ⟨.ok t, i⟩) = .ok ⟨.ok t, i⟩ ∧
    decodeResponse Json Json jsonPayload jsonPayload
      (encodeResponse Json Json jsonPayload jsonPayload ⟨.error e, i⟩) =
      .ok ⟨.error ⟨e.code, e.message, nullToNone e.data⟩, i⟩ := by
  have hid := decodeId_encodeId i hi
  constructor
  · cases t <;> simp_all [encodeResponse, decodeResponse, decodeResponseFields, resScan,
      jsonPayload, Json.isNull]
  · rcases e with ⟨c, m, d⟩
    rcases d with _ | ⟨dv⟩
    · simp_all [encodeResponse, decodeResponse, decodeResponseFields, resScan,
        encodeError, decodeIncomingError, errScan, jsonPayload, nullToNone]
    · cases dv <;> simp_all [encodeResponse, decodeResponse, decodeResponseFields, resScan,
        encodeError, decodeIncomingError, errScan, jsonPayload, nullToNone]

/-- Witness for C5 as amended, at a boolean success payload, a concrete
error and the string id `"a"`. -/
theorem claim5_response_roundtrip_amended_witness :
    decodeResponse Json Json jsonPayload jsonPayload
      (encodeResponse Json Json jsonPayload jsonPayload ⟨.ok (.bool true), .str "a"⟩) =
      .ok ⟨.ok (.bool true), .str "a"⟩ ∧
    decodeResponse Json Json jsonPayload jsonPayload
      (encodeResponse Json Json jsonPayload jsonPayload ⟨.error ⟨⟨1⟩, "m", none⟩, .str "a"⟩) =
      .ok ⟨.error ⟨⟨1⟩, "m", none⟩, .str "a"⟩ :=
  claim5_response_roundtrip_amended (.bool true) ⟨⟨1⟩, "m", none⟩ (.str "a") rfl rfl

/-- Claim C6: decoding a request (on either decode path) or a response
whose `jsonrpc` member is any string other than `"2.0"`, all other
fields valid, fails with the `invalid_value` error carrying the
offending string and the expectation `"2.0"`. -/
theorem claim6_version_mismatch (v : String) (h : v ≠ "2.0") :
    decodeRequest Json jsonParams
      (.obj [("jsonrpc", .str v), ("method", .str "m"), ("params", .arr []),
        ("id", .intNum 1)]) = .error (.invalidValue v "2.0") ∧
    decodeRequestRaw Json jsonParams
      (.obj [("jsonrpc", .str v), ("method", .str "m"), ("params", .arr []),
        ("id", .intNum 1)]) = .error (.invalidValue v "2.0") ∧
    decodeResponse Json Json jsonPayload jsonPayload
      (.obj [("jsonrpc", .str v), ("result", .intNum 1), ("id", .intNum 1)]) =
      .error (.invalidValue v "2.0") := by
  refine ⟨?_, ?_, ?_⟩ <;>
    simp [decodeRequest, decodeRequestRaw, decodeResponse, decodeRequestFields,
      decodeResponseFields, reqScan, resScan, jsonParams, jsonPayload, idFieldReq,
      idFieldRaw, decodeId, Except.map, h]

/-- Witness for C6 at the spec's example version string `"1.0"`. -/
theorem claim6_version_mismatch_witness :
    decodeRequest Json jsonParams
      (.obj [("jsonrpc", .str "1.0"), ("method", .str "m"), ("params", .arr []),
        ("id", .intNum 1)]) = .error (.invalidValue "1.0" "2.0") ∧
    decodeRequestRaw Json jsonParams
      (.obj [("jsonrpc", .str "1.0"), ("method", .str "m"), ("params", .arr []),
        ("id", .intNum 1)]) = .error (.invalidValue "1.0" "2.0") ∧
    decodeResponse Json Json jsonPayload jsonPayload
      (.obj [("jsonrpc", .str "1.0"), ("result", .intNum 1), ("id", .intNum 1)]) =
      .error (.invalidValue "1.0" "2.0") :=
  claim6_version_mismatch "1.0" (by decide)

/-- Claim C7: a top-level JSON array decodes to the batch variant (the
spec's one-element example yields a batch of length 1), a top-level
object to the single variant, and every other top-level shape (string,
boolean, integer or float number, null) is an `invalid_type` decode
error; serialisation mirrors the held variant with no added wrapping. -/
theorem claim7_batch_shape_dispatch :
    decodeMaybeBatched Json jsonParams
      (.arr [.obj [("jsonrpc", .str "2.0"), ("method", .str "a"), ("params", .arr [])]]) =
      .ok (.batch [⟨"a", .arr [], none⟩]) ∧
    decodeMaybeBatched Json jsonParams
      (.obj [("jsonrpc", .str "2.0"), ("method", .str "a"), ("params", .arr [])]) =
      .ok (.single ⟨"a", .arr [], none⟩) ∧
    (∀ s, decodeMaybeBatched Json jsonParams (.str s) = .error (.invalidType "string")) ∧
    (∀ b, decodeMaybeBatched Json jsonParams (.bool b) = .error (.invalidType "boolean")) ∧
    (∀ i : Int, decodeMaybeBatched Json jsonParams (.intNum i) =
      .error (.invalidType "integer")) ∧
    (∀ q : ℚ, decodeMaybeBatched Json jsonParams (.floatNum q) =
      .error (.invalidType "floating point")) ∧
    decodeMaybeBatched Json jsonParams .null = .error (.invalidType "null") ∧
    (∀ r : Request Json, encodeMaybeBatched Json (fun v => v) (.single r) =
      encodeRequest Json (fun v => v) r) ∧
    (∀ rs : List (Request Json), encodeMaybeBatched Json (fun v => v) (.batch rs) =
      .arr (rs.map (encodeRequest Json (fun v => v)))) :=
  ⟨rfl, rfl, fun _ => rfl, fun _ => rfl, fun _ => rfl, fun _ => rfl, rfl,
    fun _ => rfl, fun _ => rfl⟩

/-- Claim C8, counterexample: with params type `Option<()>` (the type
used by the repository's own tests), decoding a request wire object
that lacks the `params` key SUCCEEDS with `params = None` — refuting
"fails … whenever the wire object … lacks the `params` key, for every
params type". -/
theorem claim8_counterexample :
    decodeRequest (Option Unit) optUnitParams
      (.obj [("jsonrpc", .str "2.0"), ("method", .str "")]) = .ok ⟨"", none, none⟩ := rfl

/-- Claim C8 as amended: a missing `method` key always fails with the
error naming `method`; a missing `params` key resolves through the
params type's own `missing_field` behaviour — an error naming `params`
for types that demand a value (such as a plain JSON value or
`UnknownParams`), but a successful decode for `Option`-like types,
which read the absent field as `None`. -/
theorem claim8_required_fields_amended :
    decodeRequest Json jsonParams
      (.obj [("jsonrpc", .str "2.0"), ("params", .arr [])]) =
      .error (.missingField "method") ∧
    decodeRequestRaw Json jsonParams
      (.obj [("jsonrpc", .str "2.0"), ("params", .arr [])]) =
      .error (.missingField "method") ∧
    decodeRequest Json jsonParams
      (.obj [("jsonrpc", .str "2.0"), ("method", .str "m")]) =
      .error (.missingField "params") ∧
    decodeRequest UnknownParams unknownParamsCodec
      (.obj [("jsonrpc", .str "2.0"), ("method", .str "m")]) =
      .error (.missingField "params") ∧
    decodeRequest (Option Unit) optUnitParams
      (.obj [("jsonrpc", .str "2.0"), ("method", .str "m")]) = .ok ⟨"m", none, none⟩ ∧
    (∀ (P : Type) (pc : ParamsCodec P),
      decodeRequest P pc (.obj [("jsonrpc", .str "2.0"), ("method", .str "m")]) =
        pc.onMissing.map (fun p => ⟨"m", p, none⟩)) := by
  refine ⟨rfl, rfl, rfl, rfl, rfl, fun P pc => ?_⟩
  cases h : pc.onMissing <;>
    simp [decodeRequest, decodeRequestFields, reqScan, h, Except.map]

/-- Claim C9: an `UnknownParams` value holding no raw bytes parses as
the canonical empty array, so parsing it at any sequence target type
yields the empty sequence; parsing a value that holds raw text runs
the caller's decoder on exactly that text; and at initial request
decode time a present `params` value of any shape is captured without
structural validation, so the request decode never fails on the params
content. -/
theorem claim9_unknown_params_deferred :
    UnknownParams.parse (List Json) (decodeList Json (fun v => .ok v)) none =
      .ok [] ∧
    (∀ (A : Type) (dec : Json → Except DeErr A),
      UnknownParams.parse (List A) (decodeList A dec) none = .ok []) ∧
    (∀ (A : Type) (dec : Json → Except DeErr A) (j : Json),
      UnknownParams.parse A dec (some j) = dec j) ∧
    (∀ v : Json, unknownParamsCodec.dec v = .ok (captureParams v)) ∧
    (∀ v : Json, decodeRequest UnknownParams unknownParamsCodec
      (.obj [("jsonrpc", .str "2.0"), ("method", .str "m"), ("params", v)]) =
      .ok ⟨"m", captureParams v, none⟩) :=
  ⟨rfl, fun _ _ => rfl, fun _ _ _ => rfl, fun _ => rfl,
    fun v => by cases v <;> rfl⟩

/-- Claim C10: the empty JSON array `[]` decodes successfully to a
batch of zero requests (no lower bound on batch length), a one-bad-
element array fails as a whole, and in general a successful batch
decode means every element of the array decoded successfully as a
request — so any single element failure fails the whole batch
decode. -/
theorem claim10_empty_batch_and_per_element_failure :
    decodeMaybeBatched Json jsonParams (.arr []) = .ok (.batch []) ∧
    decodeMaybeBatched Json jsonParams
      (.arr [.obj [("jsonrpc", .str "2.0"), ("method", .str "a"), ("params", .arr [])],
        .str "x"]) = .error (.invalidType "string") ∧
    (∀ (P : Type) (pc : ParamsCodec P) (xs : List Json) (res : MaybeBatchedRequests P),
      decodeMaybeBatched P pc (.arr xs) = .ok res →
      ∀ x ∈ xs, ∃ r, decodeRequest P pc x = .ok r) := by
  refine ⟨rfl, rfl, fun P pc xs res h => ?_⟩
  rcases hl : decodeRequestList P pc xs with e | rs
  · rw [decodeMaybeBatched, hl] at h
    exact absurd h (by simp)
  · exact decodeRequestList_ok_forall P pc xs rs hl

end JsonRpc
